import Mathlib

/-
Verification of the Harvard College Observatory announcements curation module
(`curate.py`).  The Python functions are shallowly embedded as pure Lean
functions.  Pandas tables are modelled as lists of association-list rows over
string-valued (or missing, NaN) cells; HTTP traffic and the external
pyDataverse / dvuploader libraries are modelled as explicit oracle parameters,
and the requests a function issues (plus the messages it prints) are returned
as part of its result so that "no request was issued" is expressible.
-/

set_option autoImplicit false

namespace Curate

/-- A pandas cell as this module uses it: a string value or a missing value
(NaN).  The module only ever branches on string-ness (`isinstance(x, str)`)
and missing-ness (`pd.notna`). -/
inductive Cell
  | str (s : String)
  | na
deriving DecidableEq, Repr

/-- Python `str()` applied to a cell; `str(float('nan'))` is `"nan"`. -/
def Cell.toPyStr : Cell → String
  | .str s => s
  | .na => "nan"

/-- pandas `pd.notna`. -/
def Cell.notna : Cell → Bool
  | .str _ => true
  | .na => false

/-- Python `isinstance(x, str)`. -/
def Cell.isStr : Cell → Bool
  | .str _ => true
  | .na => false

/-- Scanner for `pySplit`: walks the character list left to right, cutting at
each non-overlapping occurrence of the (non-empty) separator.  The fuel is
structural so that the kernel can evaluate concrete splits; any fuel of at
least `l.length + 1` is enough since every step consumes a character. -/
def pySplitGo (sep : List Char) : Nat → List Char → List Char → List (List Char)
  | 0, acc, l => [acc.reverse ++ l]
  | fuel + 1, acc, l =>
    if sep.isPrefixOf l ∧ sep ≠ [] then
      acc.reverse :: pySplitGo sep fuel [] (l.drop sep.length)
    else
      match l with
      | [] => [acc.reverse]
      | c :: rest => pySplitGo sep fuel (c :: acc) rest

/-- Python `s.split(sep)` for a non-empty separator: `''.split(';') = ['']`,
`'a;'.split(';') = ['a', '']`, `'a;;b'.split(';') = ['a', '', 'b']`. -/
def pySplit (s sep : String) : List String :=
  (pySplitGo sep.toList (s.toList.length + 1) [] s.toList).map (fun cs => String.mk cs)

/-- One row of a pandas DataFrame: column name to cell. -/
abbrev Row := List (String × Cell)

/-- Reading a column from a row produced by `iterrows` (the column is present
in the table, a physically absent entry reads as NaN). -/
def Row.get (r : Row) (c : String) : Cell :=
  match r.find? (fun p => p.1 == c) with
  | some p => p.2
  | none => .na

/-- A pandas DataFrame: its column set and its rows in order. -/
structure DataFrame where
  columns : List String
  rows : List Row
deriving DecidableEq, Repr

/-- pandas `df.empty` (the inventory tables always carry columns, so
emptiness is having no rows). -/
def DataFrame.empty (df : DataFrame) : Bool :=
  df.rows.isEmpty

/-- `df.at[first_index, c]`: raises `KeyError` when the column is absent,
`IndexError` when there is no row. -/
def DataFrame.atFirst (df : DataFrame) (c : String) : Except String Cell :=
  if df.columns.contains c then
    match df.rows.head? with
    | some r => .ok (r.get c)
    | none => .error "IndexError"
  else .error ("KeyError: " ++ c)

/-- One entry of the `keywords` list (curate.py line 75). -/
structure Keyword where
  keywordValue : String
  keywordVocabulary : String
  keywordVocabularyURI : String
deriving DecidableEq, Repr

/-- One entry of the `topic_classification` list (curate.py line 80). -/
structure TopicClassification where
  topicClassValue : String
deriving DecidableEq, Repr

/-- One entry of the `author` list (curate.py line 99). -/
structure Author where
  authorName : String
  authorAffiliation : String
deriving DecidableEq, Repr

/-- One entry of the `contact` list (curate.py line 101). -/
structure DatasetContact where
  datasetContactName : String
  datasetContactAffiliation : String
  datasetContactEmail : String
deriving DecidableEq, Repr

/-- The dataset metadata dictionary built by `create_dataset_metadata`
(curate.py lines 97-111).  `title` and `data_source` hold raw cells taken
from the table; the remaining fields are built strings and lists. -/
structure DatasetMetadata where
  title : Cell
  author : List Author
  description : List String
  contact : List DatasetContact
  subject : List String
  license : String
  keywords : List Keyword
  topic_classification : List TopicClassification
  data_source : List Cell
  creation_date : String
  astroObject : List String
  astroFacility : List String
  astroType : String
deriving DecidableEq, Repr

/-- Possible outcomes of `create_dataset_metadata`: the `{}` sentinel, a
metadata record, or a raised Python exception. -/
inductive DsMetaResult
  | emptyDict
  | record (m : DatasetMetadata)
  | raised (msg : String)
deriving DecidableEq, Repr

/-- The required-field list of `create_dataset_metadata` (curate.py line 52). -/
def required_fields : List String :=
  ["series_name", "volume_title", "contributor", "subjects", "card_date_year", "url"]

/-- State-instrumented embedding of `create_dataset_metadata` (curate.py
lines 18-113).  The first component of the result is the inventory table as
the function leaves it; every access the source performs on the table is a
read, so the table is returned untouched on every path.  Reads happen in
source order so that the first missing non-required column determines the
`KeyError`.  `volume_title` is read (line 63) but never used, hence the
underscore. -/
def create_dataset_metadata_st (author affiliation contact email series_name : String)
    (series_inventory : DataFrame) : DataFrame × DsMetaResult :=
  -- Validate parameters (lines 42-49)
  if author == "" || affiliation == "" || contact == "" || email == "" ||
      series_name == "" || series_inventory.empty then
    (series_inventory, .emptyDict)
  -- Check the inventory for required fields (lines 52-56)
  else if required_fields.any (fun field => !(series_inventory.columns.contains field)) then
    (series_inventory, .emptyDict)
  else
    -- Collect metadata variables (lines 59-70)
    match series_inventory.atFirst "series_name" with
    | .error e => (series_inventory, .raised e)
    | .ok dataset_title =>
    match series_inventory.atFirst "volume_title" with
    | .error e => (series_inventory, .raised e)
    | .ok _volume_title =>
    match series_inventory.atFirst "card_number" with
    | .error e => (series_inventory, .raised e)
    | .ok card_number =>
    match series_inventory.atFirst "contributor" with
    | .error e => (series_inventory, .raised e)
    | .ok contributor =>
    match series_inventory.atFirst "all_observations" with
    | .error e => (series_inventory, .raised e)
    | .ok all_observations =>
    match series_inventory.atFirst "card_date_year" with
    | .error e => (series_inventory, .raised e)
    | .ok collection_date_year =>
    match series_inventory.atFirst "card_date_month" with
    | .error e => (series_inventory, .raised e)
    | .ok collection_date_month =>
    match series_inventory.atFirst "card_date_day" with
    | .error e => (series_inventory, .raised e)
    | .ok collection_date_day =>
    let collection_date :=
      collection_date_year.toPyStr ++ "-" ++ collection_date_month.toPyStr ++ "-" ++
        collection_date_day.toPyStr
    -- Process keywords (lines 73-75)
    match series_inventory.atFirst "subjects" with
    | .error e => (series_inventory, .raised e)
    | .ok keyword_str =>
    let keywords := if keyword_str.isStr then pySplit keyword_str.toPyStr ";" else []
    let kws := keywords.map (fun kw =>
      Keyword.mk kw "LCSH" "https://www.loc.gov/aba/cataloging/subject/")
    -- Process topic classes (lines 78-80)
    match series_inventory.atFirst "topic_class" with
    | .error e => (series_inventory, .raised e)
    | .ok topic_class_str =>
    let topics := if topic_class_str.isStr then pySplit topic_class_str.toPyStr ";" else []
    let tps := topics.map (fun top => TopicClassification.mk top)
    -- Process objects (lines 83-85): re-reads 'all_observations', already read above
    let objects := if all_observations.isStr then pySplit all_observations.toPyStr ";" else []
    let obs := objects.map (fun obj => obj)
    -- Build the description (line 88)
    let description :=
      dataset_title.toPyStr ++
        " is a series of tables and text files associated with HCO Announcement Card number: " ++
        card_number.toPyStr ++ ". Compiled by: " ++ contributor.toPyStr ++
        ". Objects observed include " ++ all_observations.toPyStr ++ "."
    -- Define other metadata (lines 91-94)
    let subjects := "Astronomy and Astrophysics"
    match series_inventory.atFirst "url" with
    | .error e => (series_inventory, .raised e)
    | .ok url_cell =>
    let data_source := [url_cell]
    let astro_facility := ["Harvard Bureau of Astronomical Telegrams"]
    let astro_type := "Observation"
    -- Build the dataset metadata dictionary (lines 97-111)
    (series_inventory, .record
      { title := dataset_title
        author := [Author.mk author affiliation]
        description := [description]
        contact := [DatasetContact.mk contact affiliation email]
        subject := [subjects]
        license := "CC0 1.0"
        keywords := kws
        topic_classification := tps
        data_source := data_source
        creation_date := collection_date
        astroObject := obs
        astroFacility := astro_facility
        astroType := astro_type })

/-- `create_dataset_metadata` (curate.py lines 18-113): the value the Python
function returns, same body as `create_dataset_metadata_st` without the
threaded table. -/
def create_dataset_metadata (author affiliation contact email series_name : String)
    (series_inventory : DataFrame) : DsMetaResult :=
  -- Validate parameters (lines 42-49)
  if author == "" || affiliation == "" || contact == "" || email == "" ||
      series_name == "" || series_inventory.empty then
    .emptyDict
  -- Check the inventory for required fields (lines 52-56)
  else if required_fields.any (fun field => !(series_inventory.columns.contains field)) then
    .emptyDict
  else
    -- Collect metadata variables (lines 59-70)
    match series_inventory.atFirst "series_name" with
    | .error e => .raised e
    | .ok dataset_title =>
    match series_inventory.atFirst "volume_title" with
    | .error e => .raised e
    | .ok _volume_title =>
    match series_inventory.atFirst "card_number" with
    | .error e => .raised e
    | .ok card_number =>
    match series_inventory.atFirst "contributor" with
    | .error e => .raised e
    | .ok contributor =>
    match series_inventory.atFirst "all_observations" with
    | .error e => .raised e
    | .ok all_observations =>
    match series_inventory.atFirst "card_date_year" with
    | .error e => .raised e
    | .ok collection_date_year =>
    match series_inventory.atFirst "card_date_month" with
    | .error e => .raised e
    | .ok collection_date_month =>
    match series_inventory.atFirst "card_date_day" with
    | .error e => .raised e
    | .ok collection_date_day =>
    let collection_date :=
      collection_date_year.toPyStr ++ "-" ++ collection_date_month.toPyStr ++ "-" ++
        collection_date_day.toPyStr
    -- Process keywords (lines 73-75)
    match series_inventory.atFirst "subjects" with
    | .error e => .raised e
    | .ok keyword_str =>
    let keywords := if keyword_str.isStr then pySplit keyword_str.toPyStr ";" else []
    let kws := keywords.map (fun kw =>
      Keyword.mk kw "LCSH" "https://www.loc.gov/aba/cataloging/subject/")
    -- Process topic classes (lines 78-80)
    match series_inventory.atFirst "topic_class" with
    | .error e => .raised e
    | .ok topic_class_str =>
    let topics := if topic_class_str.isStr then pySplit topic_class_str.toPyStr ";" else []
    let tps := topics.map (fun top => TopicClassification.mk top)
    -- Process objects (lines 83-85): re-reads 'all_observations', already read above
    let objects := if all_observations.isStr then pySplit all_observations.toPyStr ";" else []
    let obs := objects.map (fun obj => obj)
    -- Build the description (line 88)
    let description :=
      dataset_title.toPyStr ++
        " is a series of tables and text files associated with HCO Announcement Card number: " ++
        card_number.toPyStr ++ ". Compiled by: " ++ contributor.toPyStr ++
        ". Objects observed include " ++ all_observations.toPyStr ++ "."
    -- Define other metadata (lines 91-94)
    let subjects := "Astronomy and Astrophysics"
    match series_inventory.atFirst "url" with
    | .error e => .raised e
    | .ok url_cell =>
    let data_source := [url_cell]
    let astro_facility := ["Harvard Bureau of Astronomical Telegrams"]
    let astro_type := "Observation"
    -- Build the dataset metadata dictionary (lines 97-111)
    .record
      { title := dataset_title
        author := [Author.mk author affiliation]
        description := [description]
        contact := [DatasetContact.mk contact affiliation email]
        subject := [subjects]
        license := "CC0 1.0"
        keywords := kws
        topic_classification := tps
        data_source := data_source
        creation_date := collection_date
        astroObject := obs
        astroFacility := astro_facility
        astroType := astro_type }

/-- The file-type to MIME-type chain of `create_datafile_metadata`
(curate.py lines 332-342). -/
def file_type_to_mimetype (file_type : Cell) : String :=
  if file_type = .str "jpg" then "image/jpeg"
  else if file_type = .str "xml" then "application/xml"
  else if file_type = .str "txt" then "text/plain"
  else if file_type = .str "csv" then "text/csv"
  else "UNKNOWN"

/-- The description assigned by one loop iteration (curate.py lines 344-353).
Python first assigns `desc = template_xml + ' ' + series_name` when the file
type is `'csv'`, but the second `if`/`else` (lines 348-352) immediately
overwrites it: only `'xml'` keeps `template_xml`, every other file type —
`'csv'` included — ends with `template_txt`.  String concatenation with a
missing (NaN) `series_name` raises `TypeError` on every path. -/
def datafile_description (template_txt template_xml : String)
    (file_type series_name : Cell) : Except String String :=
  match series_name with
  | .na => .error "TypeError"
  | .str s =>
    .ok (if file_type = .str "xml" then template_xml ++ " " ++ s
         else template_txt ++ " " ++ s)

/-- The tag list of one loop iteration (curate.py lines 324-330): initialised
with `'Data'`, extended with the `;`-split observation entities when the
observation cell is non-missing. -/
def datafile_tags (r : Row) : List String :=
  "Data" :: (if (r.get "observation").notna then
               pySplit (r.get "observation").toPyStr ";"
             else [])

/-- The per-row loop of `create_datafile_metadata` (curate.py lines 317-356),
collecting the five parallel column lists in input order; a `TypeError`
raised in any iteration aborts the whole call. -/
def create_datafile_rows (template_txt template_xml : String) :
    List Row →
      Except String (List Cell × List Cell × List String × List String × List (List String))
  | [] => .ok ([], [], [], [], [])
  | row :: rest =>
    match datafile_description template_txt template_xml
        (row.get "file_type") (row.get "series_name") with
    | .error e => .error e
    | .ok desc =>
      match create_datafile_rows template_txt template_xml rest with
      | .error e => .error e
      | .ok tail =>
        .ok (row.get "filename" :: tail.1, row.get "file_type" :: tail.2.1,
             desc :: tail.2.2.1,
             file_type_to_mimetype (row.get "file_type") :: tail.2.2.2.1,
             datafile_tags row :: tail.2.2.2.2)

/-- The DataFrame built by `create_datafile_metadata` (curate.py lines
359-365): five parallel columns. -/
structure FileMetaFrame where
  filename : List Cell
  file_type : List Cell
  description : List String
  mimetype : List String
  tags : List (List String)
deriving DecidableEq, Repr

/-- Possible outcomes of `create_datafile_metadata`: the empty-DataFrame
sentinel, a built frame, or a raised Python exception. -/
inductive DfMetaResult
  | emptyFrame
  | frame (df : FileMetaFrame)
  | raised (msg : String)
deriving DecidableEq, Repr

/-- The required-column set of `create_datafile_metadata`
(curate.py lines 294-297). -/
def datafile_required_fields : List String :=
  ["filename", "file_type", "series_name", "observation"]

/-- State-instrumented embedding of `create_datafile_metadata` (curate.py
lines 266-367); the first component is the inventory table as the function
leaves it.  `template_xml` is not part of the parameter validation
(lines 287-289 check only `template_csv` and `template_txt`). -/
def create_datafile_metadata_st (inventory_df : DataFrame)
    (template_csv template_txt _template_xml : String) : DataFrame × DfMetaResult :=
  -- validate parameters (lines 287-291)
  if inventory_df.empty || template_csv == "" || template_txt == "" then
    (inventory_df, .emptyFrame)
  -- check the dataframe for required fields (lines 294-299)
  else if !(inventory_df.columns.contains "filename") ||
      !(inventory_df.columns.contains "file_type") ||
      !(inventory_df.columns.contains "series_name") ||
      !(inventory_df.columns.contains "observation") then
    (inventory_df, .emptyFrame)
  else
    -- iterate through the inventory (lines 317-356) and build the frame (lines 359-365)
    match create_datafile_rows template_txt _template_xml inventory_df.rows with
    | .error e => (inventory_df, .raised e)
    | .ok out =>
      (inventory_df,
       .frame (FileMetaFrame.mk out.1 out.2.1 out.2.2.1 out.2.2.2.1 out.2.2.2.2))

/-- `create_datafile_metadata` proper: the value the Python function returns. -/
def create_datafile_metadata (inventory_df : DataFrame)
    (template_csv template_txt template_xml : String) : DfMetaResult :=
  (create_datafile_metadata_st inventory_df template_csv template_txt template_xml).2

/-- The pyDataverse API handle: the two attributes the module reads.
A falsy handle (`not api`) is modelled as `Option.none` at call sites. -/
structure Api where
  base_url : String
  api_token : String
deriving DecidableEq, Repr

/-- An HTTP response as `pydataverse_create_dataset` consumes it:
`response.status_code` and the `data.id` / `data.persistentId` fields of
`response.json()`. -/
structure HttpResponse where
  status_code : Int
  data_id : Int
  data_persistentId : String
deriving DecidableEq, Repr

/-- The status dictionary returned by `pydataverse_create_dataset`
(curate.py lines 199-203, 224-228, 254-264). -/
structure CreateDatasetResult where
  status : Bool
  dataset_id : Int
  dataset_pid : String
deriving DecidableEq, Repr

/-- Observable outcome of `pydataverse_create_dataset`: the returned
dictionary together with the URLs of the HTTP requests it issued and the
messages it printed. -/
structure PCDOut where
  result : CreateDatasetResult
  requests : List String
  printed : List String
deriving DecidableEq, Repr

/-- The dataset-creation request URL (curate.py line 243). -/
def pcd_request_url (base_url dataverse_url : String) : String :=
  base_url ++ "/api/dataverses/" ++ dataverse_url ++ "/datasets"

/-- Embedding of `pydataverse_create_dataset` (curate.py lines 178-264).
`dataset_metadata` is `none` for the falsy empty dictionary `{}` (the value
`create_dataset_metadata` returns on failure) and `some` for a populated
record.  The external pyDataverse model is condensed into the
`validate_json` oracle (line 223) and `requests.post` into the `post`
oracle, keyed by the request URL (line 246). -/
def pydataverse_create_dataset (api : Option Api) (dataverse_url : String)
    (dataset_metadata : Option DatasetMetadata)
    (validate_json : DatasetMetadata → Bool)
    (post : String → HttpResponse) : PCDOut :=
  -- validate parameters (lines 197-203)
  match api, dataset_metadata with
  | none, _ => PCDOut.mk (CreateDatasetResult.mk false (-1) "") [] []
  | some _, none => PCDOut.mk (CreateDatasetResult.mk false (-1) "") [] []
  | some api, some md =>
    -- use pyDataverse to ensure that the metadata is valid (lines 222-228)
    if validate_json md = false then
      PCDOut.mk (CreateDatasetResult.mk false (-1) "") [] []
    else
      -- create the dataset via the dataverse api (lines 234-248)
      let request_url := pcd_request_url api.base_url dataverse_url
      let response := post request_url
      let status := response.status_code
      -- handle http responses (lines 251-264)
      if ¬ (status ≥ 200 ∧ status < 300) then
        PCDOut.mk (CreateDatasetResult.mk false (-1) "") [request_url]
          ["Error: " ++ toString status ++ " - failed to create dataset " ++ md.title.toPyStr]
      else
        PCDOut.mk (CreateDatasetResult.mk true response.data_id response.data_persistentId)
          [request_url] []

/-- Observable outcome of `python_dvuploader`: the Python boolean `False`
returned by the parameter validation (curate.py line 397), or passing
validation and proceeding to the upload phase (the upload phase itself calls
the external dvuploader library and returns `None`; it is abstracted here
since no claim concerns it). -/
inductive DvUploaderOutcome
  | boolFalse
  | proceeds
deriving DecidableEq, Repr

/-- Embedding of the validation prefix of `python_dvuploader` (curate.py
lines 391-397). -/
def python_dvuploader (api : Option Api)
    (dataverse_url dataset_pid data_directory : String)
    (metadata_df : DataFrame) : DvUploaderOutcome :=
  if api.isNone || dataverse_url == "" || dataset_pid == "" || data_directory == "" ||
      metadata_df.empty then
    .boolFalse
  else
    .proceeds

/-- The `{'status': bool, 'message': str}` dictionaries of `publish_datasets`
and `unlock_datasets`. -/
structure StatusMsg where
  status : Bool
  message : String
deriving DecidableEq, Repr

/-- Outcome of `publish_datasets` / `unlock_datasets`: the invalid-parameter
sentinel, the per-PID result dictionary (insertion order preserved, as in a
Python dict), or a raised exception from PID extraction. -/
inductive PublishResult
  | invalid (r : StatusMsg)
  | results (errors : List (String × StatusMsg))
  | raised (msg : String)
deriving DecidableEq, Repr

/-- `url.split('https://doi.org/')[1]` prefixed with `'doi:'` (curate.py
lines 501-503): raises `IndexError` when the URL does not contain the DOI
prefix. -/
def pid_of_url (url : String) : Except String String :=
  match (pySplit url "https://doi.org/").get? 1 with
  | some pid => .ok ("doi:" ++ pid)
  | none => .error "IndexError"

/-- The dataset-gathering loop shared by the lifecycle functions
(curate.py lines 499-503): one PID per listed dataset, aborting on the first
malformed persistent URL. -/
def collect_pids : List String → Except String (List String)
  | [] => .ok []
  | url :: rest =>
    match pid_of_url url with
    | .error e => .error e
    | .ok pid =>
      match collect_pids rest with
      | .error e => .error e
      | .ok tail => .ok (pid :: tail)

/-- Python dict assignment `d[k] = v` on an insertion-ordered dictionary. -/
def dictInsert (d : List (String × StatusMsg)) (k : String) (v : StatusMsg) :
    List (String × StatusMsg) :=
  if d.any (fun p => p.1 == k) then
    d.map (fun p => if p.1 == k then (k, v) else p)
  else
    d ++ [(k, v)]

/-- The publish request URL (curate.py line 519). -/
def publish_request_url (base_url dataset version : String) : String :=
  base_url ++ "/api/datasets/:persistentId/actions/:publish?persistentId=" ++ dataset ++
    "&type=" ++ version

/-- The lock inspection / removal URL (curate.py lines 579 and 595). -/
def locks_request_url (base_url pid : String) : String :=
  base_url ++ "/api/datasets/:persistentId/locks?persistentId=" ++ pid

/-- One iteration of the publish loop (curate.py lines 517-530): issue the
publish POST and build the status dictionary stored under the PID. -/
def publish_entry (base_url version : String) (post_status : String → Int)
    (dataset : String) : StatusMsg :=
  let status := post_status (publish_request_url base_url dataset version)
  if ¬ (status ≥ 200 ∧ status < 300) then
    StatusMsg.mk false
      ("publish_dataset::Error - failed to publish dataset: " ++ toString status ++ ":" ++ dataset)
  else
    StatusMsg.mk true
      ("publish_dataset::Success - published dataset: " ++ toString status ++ ":" ++ dataset)

/-- Embedding of `publish_datasets` (curate.py lines 473-532).  The
collection listing returned by `api.get_dataverse_contents` is the
`contents` parameter (the `persistentUrl` of each entry); `requests.post` is
the `post_status` oracle giving the status code for a request URL. -/
def publish_datasets (api : Option Api) (dataverse_collection : String)
    (contents : List String) (post_status : String → Int) (version : String) :
    PublishResult :=
  -- validate parameters (lines 491-493)
  match api with
  | none => .invalid (StatusMsg.mk false "Invalid parameter")
  | some api =>
    if dataverse_collection == "" then .invalid (StatusMsg.mk false "Invalid parameter")
    else
      -- get the datasets in the collection (lines 496-503)
      match collect_pids contents with
      | .error e => .raised e
      | .ok datasets =>
        -- publish the datasets (lines 506-532)
        .results (datasets.foldl
          (fun errors dataset =>
            dictInsert errors dataset (publish_entry api.base_url version post_status dataset))
          [])

/-- One entry of a lock-inspection response: the `dataset` field of an
element of `response.json()['data']` (curate.py line 585). -/
structure LockEntry where
  dataset : String
deriving DecidableEq, Repr

/-- The lock-scanning loop of `unlock_datasets` (curate.py lines 574-587):
for each dataset whose lock listing is non-empty, record the `dataset` field
of the first lock. -/
def locked_pids_of (base_url : String) (get_locks : String → List LockEntry)
    (datasets : List String) : List String :=
  datasets.foldl
    (fun locked_pids dataset =>
      match get_locks (locks_request_url base_url dataset) with
      | [] => locked_pids
      | l :: _ => locked_pids ++ [l.dataset])
    []

/-- One iteration of the unlock loop (curate.py lines 593-606): issue the
DELETE and build the status dictionary stored under the PID. -/
def unlock_entry (base_url : String) (delete_status : String → Int)
    (pid : String) : StatusMsg :=
  let status := delete_status (locks_request_url base_url pid)
  if ¬ (status ≥ 200 ∧ status < 300) then
    StatusMsg.mk false
      ("publish_dataset::Error - failed to unlock dataset: " ++ toString status ++ ":" ++ pid)
  else
    StatusMsg.mk true
      ("publish_dataset::Success - unlocked dataset: " ++ toString status ++ ":" ++ pid)

/-- Embedding of `unlock_datasets` (curate.py lines 534-608).  `get_locks`
models the lock-inspection GET (the `data` list of its JSON body) and
`delete_status` the status code of the lock-removal DELETE. -/
def unlock_datasets (api : Option Api) (dataverse_collection : String)
    (contents : List String) (get_locks : String → List LockEntry)
    (delete_status : String → Int) : PublishResult :=
  -- validate parameters (lines 551-553)
  match api with
  | none => .invalid (StatusMsg.mk false "Invalid parameter")
  | some api =>
    if dataverse_collection == "" then .invalid (StatusMsg.mk false "Invalid parameter")
    else
      -- get the datasets in the collection (lines 556-563)
      match collect_pids contents with
      | .error e => .raised e
      | .ok datasets =>
        -- create the list of locked datasets (lines 574-587)
        let locked_pids := locked_pids_of api.base_url get_locks datasets
        -- unlock the locked datasets (lines 590-608)
        .results (locked_pids.foldl
          (fun errors pid =>
            dictInsert errors pid (unlock_entry api.base_url delete_status pid))
          [])

/-! ### Helper lemmas -/

/-- Characterisation of the per-row loop of `create_datafile_metadata`: on
success every output column is the row-wise image of the input rows, and
every row's `series_name` was a string. -/
lemma create_datafile_rows_spec (ttxt txml : String) :
    ∀ (rows : List Row) fns fts descs mimes tagss,
      create_datafile_rows ttxt txml rows = .ok (fns, fts, descs, mimes, tagss) →
      fns = rows.map (fun r => r.get "filename") ∧
      fts = rows.map (fun r => r.get "file_type") ∧
      mimes = rows.map (fun r => file_type_to_mimetype (r.get "file_type")) ∧
      tagss = rows.map datafile_tags ∧
      descs = rows.map (fun r =>
        (if r.get "file_type" = Cell.str "xml" then txml else ttxt) ++ " " ++
          (r.get "series_name").toPyStr) ∧
      ∀ r ∈ rows, (r.get "series_name").isStr = true := by
  intro rows
  induction rows with
  | nil =>
    intro fns fts descs mimes tagss h
    rw [create_datafile_rows] at h
    simp only [Except.ok.injEq, Prod.mk.injEq] at h
    obtain ⟨rfl, rfl, rfl, rfl, rfl⟩ := h
    simp
  | cons row rest ih =>
    intro fns fts descs mimes tagss h
    rw [create_datafile_rows] at h
    cases hsn : row.get "series_name" with
    | na =>
      rw [hsn] at h
      simp only [datafile_description] at h
      exact absurd h (by simp)
    | str s =>
      rw [hsn] at h
      simp only [datafile_description] at h
      cases hrec : create_datafile_rows ttxt txml rest with
      | error e =>
        rw [hrec] at h
        exact absurd h (by simp)
      | ok tl =>
        rw [hrec] at h
        simp only [Except.ok.injEq, Prod.mk.injEq] at h
        obtain ⟨rfl, rfl, rfl, rfl, rfl⟩ := h
        obtain ⟨i1, i2, i3, i4, i5, i6⟩ :=
          ih tl.1 tl.2.1 tl.2.2.1 tl.2.2.2.1 tl.2.2.2.2 (by rw [hrec])
        refine ⟨by simp [i1], by simp [i2], by simp [i3], by simp [i4], ?_, ?_⟩
        · simp only [List.map_cons, i5, hsn, List.cons.injEq]
          exact ⟨by split <;> rfl, trivial⟩
        · intro r hr
          rcases List.mem_cons.mp hr with hr | hr
          · subst hr; simp [hsn, Cell.isStr]
          · exact i6 r hr

/-- On the `.frame` path, `create_datafile_metadata` passed validation and
its loop succeeded on exactly the inventory's rows. -/
lemma create_datafile_metadata_frame_inv (df : DataFrame)
    (tcsv ttxt txml : String) (out : FileMetaFrame)
    (h : create_datafile_metadata df tcsv ttxt txml = .frame out) :
    create_datafile_rows ttxt txml df.rows =
      .ok (out.filename, out.file_type, out.description, out.mimetype, out.tags) := by
  rw [create_datafile_metadata, create_datafile_metadata_st] at h
  split at h
  · exact absurd h (by simp)
  · split at h
    · exact absurd h (by simp)
    · split at h
      · exact absurd h (by simp)
      · rename_i o heq
        simp only [DfMetaResult.frame.injEq] at h
        subst h
        exact heq

/-! ### Concrete example inputs used by witnesses -/

/-- A one-row file inventory: a csv file with a missing observation cell. -/
def exInvRow : Row :=
  [("filename", Cell.str "f.csv"), ("file_type", Cell.str "csv"),
   ("series_name", Cell.str "S"), ("observation", Cell.na)]

/-- The file inventory table holding `exInvRow`. -/
def exInvDf : DataFrame :=
  DataFrame.mk ["filename", "file_type", "series_name", "observation"] [exInvRow]

/-- The datafile metadata frame `create_datafile_metadata exInvDf "c" "t" "x"`
produces. -/
def exOutFrame : FileMetaFrame :=
  FileMetaFrame.mk [Cell.str "f.csv"] [Cell.str "csv"] ["t S"] ["text/csv"] [["Data"]]

/-! ### Claim theorems -/

/-- C4: the file-type to MIME-type mapping applied by
`create_datafile_metadata` is total and deterministic: `'csv'` maps to
`'text/csv'`, `'txt'` to `'text/plain'`, `'xml'` to `'application/xml'`,
`'jpg'` to `'image/jpeg'`, and every other cell value to `'UNKNOWN'`;
moreover every frame the function returns carries exactly this mapping of
its file-type column. -/
theorem mimetype_mapping_total_deterministic :
    file_type_to_mimetype (Cell.str "csv") = "text/csv" ∧
    file_type_to_mimetype (Cell.str "txt") = "text/plain" ∧
    file_type_to_mimetype (Cell.str "xml") = "application/xml" ∧
    file_type_to_mimetype (Cell.str "jpg") = "image/jpeg" ∧
    (∀ c : Cell, c ≠ Cell.str "csv" → c ≠ Cell.str "txt" → c ≠ Cell.str "xml" →
      c ≠ Cell.str "jpg" → file_type_to_mimetype c = "UNKNOWN") ∧
    (∀ df tcsv ttxt txml out,
      create_datafile_metadata df tcsv ttxt txml = DfMetaResult.frame out →
      out.mimetype = out.file_type.map file_type_to_mimetype) := by
  refine ⟨by decide, by decide, by decide, by decide, ?_, ?_⟩
  · intro c h1 h2 h3 h4
    simp [file_type_to_mimetype, h1, h2, h3, h4]
  · intro df tcsv ttxt txml out h
    obtain ⟨-, i2, i3, -, -, -⟩ :=
      create_datafile_rows_spec ttxt txml df.rows out.filename out.file_type
        out.description out.mimetype out.tags
        (create_datafile_metadata_frame_inv df tcsv ttxt txml out h)
    rw [i2, i3, List.map_map]
    rfl

/-- Witness for C4 at concrete inputs: an unlisted file type maps to
`UNKNOWN`, and the frame built from `exInvDf` carries the mapping. -/
theorem mimetype_mapping_total_deterministic_witness :
    file_type_to_mimetype (Cell.str "pdf") = "UNKNOWN" ∧
    exOutFrame.mimetype = exOutFrame.file_type.map file_type_to_mimetype :=
  ⟨mimetype_mapping_total_deterministic.2.2.2.2.1 (Cell.str "pdf")
      (by decide) (by decide) (by decide) (by decide),
   mimetype_mapping_total_deterministic.2.2.2.2.2 exInvDf "c" "t" "x" exOutFrame rfl⟩

/-- C8: in the frame built by `create_datafile_metadata`, only `'xml'` rows
receive `template_xml`; every other file type — `'csv'` included, whose
csv-specific assignment is immediately overwritten — receives
`template_txt ++ ' ' ++ series_name`; and `template_csv` never influences
the output (beyond its non-emptiness check, under which two calls differing
only in `template_csv` return identical results). -/
theorem datafile_description_ignores_template_csv :
    (∀ df tcsv ttxt txml out (i : Nat) (row : Row) s,
      create_datafile_metadata df tcsv ttxt txml = DfMetaResult.frame out →
      df.rows[i]? = some row →
      row.get "series_name" = Cell.str s →
      out.description[i]? =
        some ((if row.get "file_type" = Cell.str "xml" then txml else ttxt) ++ " " ++ s)) ∧
    (∀ df tcsv ttxt txml out (i : Nat) (row : Row) s,
      create_datafile_metadata df tcsv ttxt txml = DfMetaResult.frame out →
      df.rows[i]? = some row →
      row.get "series_name" = Cell.str s →
      row.get "file_type" = Cell.str "csv" →
      out.description[i]? = some (ttxt ++ " " ++ s)) ∧
    (∀ df tcsv1 tcsv2 ttxt txml, tcsv1 ≠ "" → tcsv2 ≠ "" →
      create_datafile_metadata df tcsv1 ttxt txml =
        create_datafile_metadata df tcsv2 ttxt txml) := by
  have main : ∀ (df : DataFrame) (tcsv ttxt txml : String) out (i : Nat) (row : Row) s,
      create_datafile_metadata df tcsv ttxt txml = DfMetaResult.frame out →
      df.rows[i]? = some row →
      row.get "series_name" = Cell.str s →
      out.description[i]? =
        some ((if row.get "file_type" = Cell.str "xml" then txml else ttxt) ++ " " ++ s) := by
    intro df tcsv ttxt txml out i row s h hi hsn
    obtain ⟨-, -, -, -, i5, -⟩ :=
      create_datafile_rows_spec ttxt txml df.rows out.filename out.file_type
        out.description out.mimetype out.tags
        (create_datafile_metadata_frame_inv df tcsv ttxt txml out h)
    rw [i5, List.getElem?_map, hi, Option.map_some', hsn]
    rfl
  refine ⟨main, ?_, ?_⟩
  · intro df tcsv ttxt txml out i row s h hi hsn hft
    have := main df tcsv ttxt txml out i row s h hi hsn
    rw [hft] at this
    simpa using this
  · intro df tcsv1 tcsv2 ttxt txml h1 h2
    have e1 : (tcsv1 == "") = false := beq_eq_false_iff_ne.mpr h1
    have e2 : (tcsv2 == "") = false := beq_eq_false_iff_ne.mpr h2
    simp only [create_datafile_metadata, create_datafile_metadata_st, e1, e2]

/-- Witness for C8 at concrete inputs: the csv row of `exInvDf` is described
with `template_txt` (`"t"`), and changing `template_csv` from `"c1"` to
`"c2"` does not change the result. -/
theorem datafile_description_ignores_template_csv_witness :
    exOutFrame.description[0]? = some ("t" ++ " " ++ "S") ∧
    create_datafile_metadata exInvDf "c1" "t" "x" =
      create_datafile_metadata exInvDf "c2" "t" "x" :=
  ⟨datafile_description_ignores_template_csv.2.1 exInvDf "c" "t" "x" exOutFrame 0 exInvRow "S"
      rfl rfl (by decide) (by decide),
   datafile_description_ignores_template_csv.2.2 exInvDf "c1" "c2" "t" "x"
      (by decide) (by decide)⟩

/-- C9: every frame built by `create_datafile_metadata` has one output row
per input row — all five columns have the input's length, with filenames and
file types in input order — and every tags list begins with `'Data'`. -/
theorem datafile_frame_row_alignment :
    ∀ df tcsv ttxt txml out,
      create_datafile_metadata df tcsv ttxt txml = DfMetaResult.frame out →
      out.filename = df.rows.map (fun r => r.get "filename") ∧
      out.file_type = df.rows.map (fun r => r.get "file_type") ∧
      out.filename.length = df.rows.length ∧
      out.file_type.length = df.rows.length ∧
      out.description.length = df.rows.length ∧
      out.mimetype.length = df.rows.length ∧
      out.tags.length = df.rows.length ∧
      ∀ t ∈ out.tags, t.head? = some "Data" := by
  intro df tcsv ttxt txml out h
  obtain ⟨i1, i2, i3, i4, i5, -⟩ :=
    create_datafile_rows_spec ttxt txml df.rows out.filename out.file_type
      out.description out.mimetype out.tags
      (create_datafile_metadata_frame_inv df tcsv ttxt txml out h)
  refine ⟨i1, i2, by simp [i1], by simp [i2], by simp [i5], by simp [i3], by simp [i4], ?_⟩
  intro t ht
  rw [i4] at ht
  obtain ⟨r, -, rfl⟩ := List.mem_map.mp ht
  rfl

/-- Witness for C9 at the concrete table `exInvDf`. -/
theorem datafile_frame_row_alignment_witness :
    exOutFrame.filename = exInvDf.rows.map (fun r => r.get "filename") ∧
    exOutFrame.file_type = exInvDf.rows.map (fun r => r.get "file_type") ∧
    exOutFrame.filename.length = exInvDf.rows.length ∧
    exOutFrame.file_type.length = exInvDf.rows.length ∧
    exOutFrame.description.length = exInvDf.rows.length ∧
    exOutFrame.mimetype.length = exInvDf.rows.length ∧
    exOutFrame.tags.length = exInvDf.rows.length ∧
    ∀ t ∈ exOutFrame.tags, t.head? = some "Data" :=
  datafile_frame_row_alignment exInvDf "c" "t" "x" exOutFrame rfl

/-- A series inventory that carries all six documented required fields of
`create_dataset_metadata` but omits the non-required column `card_number`,
which the function nevertheless reads. -/
def noCardNumberDf : DataFrame :=
  DataFrame.mk ["series_name", "volume_title", "contributor", "subjects",
                "card_date_year", "url"]
    [[("series_name", Cell.str "S"), ("volume_title", Cell.str "V"),
      ("contributor", Cell.str "C"), ("subjects", Cell.str "s"),
      ("card_date_year", Cell.str "1921"), ("url", Cell.str "u")]]

/-- Counterexample to C1: on a table with every documented required field
present but the additionally-read column `card_number` absent,
`create_dataset_metadata` raises a `KeyError` instead of returning the empty
sentinel. -/
theorem missing_read_column_raises :
    create_dataset_metadata "a" "b" "c" "d" "e" noCardNumberDf =
      DsMetaResult.raised "KeyError: card_number" ∧
    create_dataset_metadata "a" "b" "c" "d" "e" noCardNumberDf ≠
      DsMetaResult.emptyDict := by
  exact ⟨rfl, by decide⟩

/-- C1 (amended): omitting any field of the documented required-field set
makes `create_dataset_metadata` return `{}` and `create_datafile_metadata`
return the empty DataFrame, for all values of the other parameters; omitting
a non-required column that `create_dataset_metadata` reads raises instead
(see the counterexample). -/
theorem required_field_missing_yields_sentinel :
    (∀ author affiliation contact email series_name df f,
      f ∈ required_fields → df.columns.contains f = false →
      create_dataset_metadata author affiliation contact email series_name df =
        DsMetaResult.emptyDict) ∧
    (∀ df tcsv ttxt txml f,
      f ∈ datafile_required_fields → df.columns.contains f = false →
      create_datafile_metadata df tcsv ttxt txml = DfMetaResult.emptyFrame) := by
  constructor
  · intro a b c d e df f hf hc
    rw [create_dataset_metadata]
    split
    · rfl
    · split
      · rfl
      · rename_i hany
        exact absurd (List.any_eq_true.mpr ⟨f, hf, by rw [hc]; rfl⟩) hany
  · intro df tcsv ttxt txml f hf hc
    rw [create_datafile_metadata, create_datafile_metadata_st]
    split
    · rfl
    · split
      · rfl
      · rename_i hany
        exfalso
        fin_cases hf <;>
          exact hany (by simp only [hc, Bool.not_false, Bool.or_true, Bool.true_or])

/-- Witness for the amended C1 at concrete inputs: a table missing `url`
(resp. missing `observation`) yields the sentinel. -/
theorem required_field_missing_yields_sentinel_witness :
    create_dataset_metadata "a" "b" "c" "d" "e"
        (DataFrame.mk ["series_name"] [[("series_name", Cell.str "S")]]) =
      DsMetaResult.emptyDict ∧
    create_datafile_metadata
        (DataFrame.mk ["filename"] [[("filename", Cell.str "f")]]) "c" "t" "x" =
      DfMetaResult.emptyFrame :=
  ⟨required_field_missing_yields_sentinel.1 "a" "b" "c" "d" "e"
      (DataFrame.mk ["series_name"] [[("series_name", Cell.str "S")]]) "url"
      (by decide) (by decide),
   required_field_missing_yields_sentinel.2
      (DataFrame.mk ["filename"] [[("filename", Cell.str "f")]]) "c" "t" "x" "observation"
      (by decide) (by decide)⟩

/-- Counterexample to C6: given all-falsy arguments, `python_dvuploader`
returns the bare Python boolean `False` (curate.py line 397) — not an empty
structure and not a status dictionary with `status: False` as the claim
states (its own docstring even promises a dict). -/
theorem python_dvuploader_falsy_returns_bool :
    python_dvuploader none "" "" "" (DataFrame.mk [] []) = DvUploaderOutcome.boolFalse := rfl

/-- C6 (amended): every listed function reports invalid or missing
parameters by an early sentinel return and never by raising:
`create_dataset_metadata` returns `{}`, `pydataverse_create_dataset` returns
`{'status': False, 'dataset_id': -1, 'dataset_pid': ''}` without issuing a
request or printing, `create_datafile_metadata` returns an empty DataFrame,
`publish_datasets` and `unlock_datasets` return
`{'status': False, 'message': 'Invalid parameter'}` — but `python_dvuploader`
returns the bare boolean `False`, which is neither an empty structure nor a
status dictionary. -/
theorem falsy_arguments_yield_early_sentinels :
    (∀ author affiliation contact email series_name df,
      (author = "" ∨ affiliation = "" ∨ contact = "" ∨ email = "" ∨ series_name = "" ∨
        df.empty = true) →
      create_dataset_metadata author affiliation contact email series_name df =
        DsMetaResult.emptyDict) ∧
    (∀ api url md validate post, (api = none ∨ md = none) →
      pydataverse_create_dataset api url md validate post =
        PCDOut.mk (CreateDatasetResult.mk false (-1) "") [] []) ∧
    (∀ df tcsv ttxt txml, (df.empty = true ∨ tcsv = "" ∨ ttxt = "") →
      create_datafile_metadata df tcsv ttxt txml = DfMetaResult.emptyFrame) ∧
    (∀ api url pid dir df,
      (api = none ∨ url = "" ∨ pid = "" ∨ dir = "" ∨ df.empty = true) →
      python_dvuploader api url pid dir df = DvUploaderOutcome.boolFalse) ∧
    (∀ api coll contents post version, (api = none ∨ coll = "") →
      publish_datasets api coll contents post version =
        PublishResult.invalid (StatusMsg.mk false "Invalid parameter")) ∧
    (∀ api coll contents locks del, (api = none ∨ coll = "") →
      unlock_datasets api coll contents locks del =
        PublishResult.invalid (StatusMsg.mk false "Invalid parameter")) := by
  refine ⟨?_, ?_, ?_, ?_, ?_, ?_⟩
  · intro a b c d e df h
    rcases h with rfl | rfl | rfl | rfl | rfl | h <;>
      simp [create_dataset_metadata, create_dataset_metadata_st, *]
  · intro api url md validate post h
    rcases h with rfl | rfl
    · rfl
    · cases api <;> rfl
  · intro df tcsv ttxt txml h
    rcases h with h | rfl | rfl <;>
      simp [create_datafile_metadata, create_datafile_metadata_st, *]
  · intro api url pid dir df h
    rcases h with rfl | rfl | rfl | rfl | h <;> simp [python_dvuploader, *]
  · intro api coll contents post version h
    rcases h with rfl | rfl
    · rfl
    · cases api <;> simp [publish_datasets]
  · intro api coll contents locks del h
    rcases h with rfl | rfl
    · rfl
    · cases api <;> simp [unlock_datasets]

/-- Witness for the amended C6: each function evaluated at concrete falsy
arguments returns its sentinel. -/
theorem falsy_arguments_yield_early_sentinels_witness :
    create_dataset_metadata "" "b" "c" "d" "e" exInvDf = DsMetaResult.emptyDict ∧
    pydataverse_create_dataset none "histd" none (fun _ => true)
        (fun _ => HttpResponse.mk 201 7 "doi:10.1/A") =
      PCDOut.mk (CreateDatasetResult.mk false (-1) "") [] [] ∧
    create_datafile_metadata exInvDf "" "t" "x" = DfMetaResult.emptyFrame ∧
    python_dvuploader (some (Api.mk "https://demo.dataverse.org" "tok")) "" "doi:x" "data"
        exInvDf = DvUploaderOutcome.boolFalse ∧
    publish_datasets (some (Api.mk "https://demo.dataverse.org" "tok")) "" [] (fun _ => 200)
        "major" = PublishResult.invalid (StatusMsg.mk false "Invalid parameter") ∧
    unlock_datasets none "coll" [] (fun _ => []) (fun _ => 200) =
      PublishResult.invalid (StatusMsg.mk false "Invalid parameter") :=
  ⟨falsy_arguments_yield_early_sentinels.1 "" "b" "c" "d" "e" exInvDf (Or.inl rfl),
   falsy_arguments_yield_early_sentinels.2.1 none "histd" none (fun _ => true)
     (fun _ => HttpResponse.mk 201 7 "doi:10.1/A") (Or.inl rfl),
   falsy_arguments_yield_early_sentinels.2.2.1 exInvDf "" "t" "x" (Or.inr (Or.inl rfl)),
   falsy_arguments_yield_early_sentinels.2.2.2.1
     (some (Api.mk "https://demo.dataverse.org" "tok")) "" "doi:x" "data" exInvDf
     (Or.inr (Or.inl rfl)),
   falsy_arguments_yield_early_sentinels.2.2.2.2.1
     (some (Api.mk "https://demo.dataverse.org" "tok")) "" [] (fun _ => 200) "major"
     (Or.inr rfl),
   falsy_arguments_yield_early_sentinels.2.2.2.2.2 none "coll" [] (fun _ => [])
     (fun _ => 200) (Or.inl rfl)⟩

/-- A concrete dataset metadata record. -/
def exMd : DatasetMetadata :=
  DatasetMetadata.mk (Cell.str "Tonnage: 1") [Author.mk "a" "HL"] ["d"]
    [DatasetContact.mk "c" "HL" "c@x.org"] ["Astronomy and Astrophysics"] "CC0 1.0"
    [] [] [Cell.str "u"] "1921-3-4" [] ["Harvard Bureau of Astronomical Telegrams"]
    "Observation"

/-- A concrete API handle. -/
def exApi : Api := Api.mk "https://demo.dataverse.org" "tok"

/-- Counterexample to C2: for statuses outside [200,300) the returned
dictionary is the fixed sentinel `{'status': False, 'dataset_id': -1,
'dataset_pid': ''}` — two different failure status codes (404 and 500)
produce identical results, so the result does not carry the status code
(only the printed message does). -/
theorem pcd_failure_result_drops_status_code :
    (pydataverse_create_dataset (some exApi) "histd" (some exMd) (fun _ => true)
        (fun _ => HttpResponse.mk 404 0 "")).result =
      (pydataverse_create_dataset (some exApi) "histd" (some exMd) (fun _ => true)
        (fun _ => HttpResponse.mk 500 0 "")).result ∧
    (pydataverse_create_dataset (some exApi) "histd" (some exMd) (fun _ => true)
        (fun _ => HttpResponse.mk 404 0 "")).result =
      CreateDatasetResult.mk false (-1) "" :=
  ⟨rfl, rfl⟩

/-- C2 (amended): with a valid api and validated non-empty metadata, a
status in [200,300) yields `{'status': True}` carrying the response body's
`id` and `persistentId`; any other status yields the fixed failure sentinel
`{'status': False, 'dataset_id': -1, 'dataset_pid': ''}`, the status code
appearing only in the printed error message. -/
theorem pcd_status_mapping (a : Api) (url : String) (md : DatasetMetadata)
    (validate_json : DatasetMetadata → Bool) (post : String → HttpResponse)
    (hv : validate_json md = true) :
    (200 ≤ (post (pcd_request_url a.base_url url)).status_code ∧
        (post (pcd_request_url a.base_url url)).status_code < 300 →
      pydataverse_create_dataset (some a) url (some md) validate_json post =
        PCDOut.mk
          (CreateDatasetResult.mk true (post (pcd_request_url a.base_url url)).data_id
            (post (pcd_request_url a.base_url url)).data_persistentId)
          [pcd_request_url a.base_url url] []) ∧
    (¬ (200 ≤ (post (pcd_request_url a.base_url url)).status_code ∧
        (post (pcd_request_url a.base_url url)).status_code < 300) →
      pydataverse_create_dataset (some a) url (some md) validate_json post =
        PCDOut.mk (CreateDatasetResult.mk false (-1) "")
          [pcd_request_url a.base_url url]
          ["Error: " ++ toString (post (pcd_request_url a.base_url url)).status_code ++
            " - failed to create dataset " ++ md.title.toPyStr]) := by
  constructor
  · intro h2xx
    simp only [pydataverse_create_dataset, hv, Bool.true_eq_false, if_false]
    rw [if_neg (not_not_intro h2xx)]
  · intro hfail
    simp only [pydataverse_create_dataset, hv, Bool.true_eq_false, if_false]
    rw [if_pos hfail]

/-- Witness for the amended C2 at concrete inputs: status 201 succeeds with
the body identifiers, status 404 fails with the sentinel and a printed
message carrying 404. -/
theorem pcd_status_mapping_witness :
    pydataverse_create_dataset (some exApi) "histd" (some exMd) (fun _ => true)
        (fun _ => HttpResponse.mk 201 7 "doi:10.5072/FK2/A") =
      PCDOut.mk (CreateDatasetResult.mk true 7 "doi:10.5072/FK2/A")
        [pcd_request_url exApi.base_url "histd"] [] ∧
    pydataverse_create_dataset (some exApi) "histd" (some exMd) (fun _ => true)
        (fun _ => HttpResponse.mk 404 0 "") =
      PCDOut.mk (CreateDatasetResult.mk false (-1) "")
        [pcd_request_url exApi.base_url "histd"]
        ["Error: " ++ toString (404 : Int) ++ " - failed to create dataset " ++
          (Cell.str "Tonnage: 1").toPyStr] :=
  ⟨(pcd_status_mapping exApi "histd" exMd (fun _ => true)
      (fun _ => HttpResponse.mk 201 7 "doi:10.5072/FK2/A") rfl).1 (by decide),
   (pcd_status_mapping exApi "histd" exMd (fun _ => true)
      (fun _ => HttpResponse.mk 404 0 "") rfl).2 (by decide)⟩

/-- C10: when `validate_json` fails, `pydataverse_create_dataset` returns
the failure sentinel and issues no HTTP request (and prints nothing), so no
dataset is ever created from metadata that fails validation. -/
theorem pcd_validation_failure_no_request (a : Api) (url : String)
    (md : DatasetMetadata) (validate_json : DatasetMetadata → Bool)
    (post : String → HttpResponse) (hv : validate_json md = false) :
    pydataverse_create_dataset (some a) url (some md) validate_json post =
      PCDOut.mk (CreateDatasetResult.mk false (-1) "") [] [] := by
  simp [pydataverse_create_dataset, hv]

/-- Witness for C10 at concrete inputs: an always-rejecting validator yields
the sentinel with an empty request trace. -/
theorem pcd_validation_failure_no_request_witness :
    pydataverse_create_dataset (some exApi) "histd" (some exMd) (fun _ => false)
        (fun _ => HttpResponse.mk 201 7 "doi:10.5072/FK2/A") =
      PCDOut.mk (CreateDatasetResult.mk false (-1) "") [] [] :=
  pcd_validation_failure_no_request exApi "histd" exMd (fun _ => false)
    (fun _ => HttpResponse.mk 201 7 "doi:10.5072/FK2/A") rfl

/-- Folding Python dict insertion over pairwise-distinct keys that are all
fresh for the accumulator appends one entry per key, in key order. -/
lemma foldl_dictInsert_eq_append (f : String → StatusMsg) :
    ∀ (ks : List String) (e : List (String × StatusMsg)),
      ks.Nodup → (∀ k ∈ ks, e.any (fun p => p.1 == k) = false) →
      ks.foldl (fun errors k => dictInsert errors k (f k)) e =
        e ++ ks.map (fun k => (k, f k)) := by
  intro ks
  induction ks with
  | nil => intro e _ _; simp
  | cons k rest ih =>
    intro e hnd hfresh
    rw [List.foldl_cons, dictInsert, if_neg (by simp [hfresh k (by simp)])]
    rw [ih (e ++ [(k, f k)]) (List.nodup_cons.mp hnd).2 ?_]
    · simp
    · intro k' hk'
      have hne : (k == k') = false :=
        beq_eq_false_iff_ne.mpr (fun h => (List.nodup_cons.mp hnd).1 (h ▸ hk'))
      simp [List.any_append, hfresh k' (List.mem_cons_of_mem k hk'), hne]

/-- `collect_pids` succeeds with one PID per listed dataset. -/
lemma collect_pids_length :
    ∀ (contents : List String) (ds : List String),
      collect_pids contents = Except.ok ds → ds.length = contents.length := by
  intro contents
  induction contents with
  | nil =>
    intro ds h
    rw [collect_pids] at h
    simp only [Except.ok.injEq] at h
    simp [← h]
  | cons url rest ih =>
    intro ds h
    rw [collect_pids] at h
    cases hp : pid_of_url url with
    | error e => rw [hp] at h; exact absurd h (by simp)
    | ok pid =>
      rw [hp] at h
      cases hr : collect_pids rest with
      | error e => rw [hr] at h; exact absurd h (by simp)
      | ok tail =>
        rw [hr] at h
        simp only [Except.ok.injEq] at h
        simp [← h, ih tail hr]

/-- Counterexample to C3: a collection listing of one dataset that holds no
lock makes `unlock_datasets` return an empty result mapping — zero entries,
not one per dataset. -/
theorem unlock_result_not_one_per_dataset :
    unlock_datasets (some exApi) "coll" ["https://doi.org/10.1/A"] (fun _ => [])
        (fun _ => 200) = PublishResult.results [] ∧
    ([] : List (String × StatusMsg)).length ≠ ["https://doi.org/10.1/A"].length :=
  ⟨rfl, by decide⟩

/-- C3 (amended): over a listing of N datasets with well-formed DOI URLs and
distinct PIDs, `publish_datasets` returns exactly N entries, one per dataset
keyed by its PID and in listing order, each status reflecting only that
dataset's own HTTP outcome, so one failure never prevents the others;
`unlock_datasets`, however, returns one entry per dataset it found locked
(the unlocked ones get no entry), each likewise reflecting only its own
DELETE outcome. -/
theorem batch_results_per_dataset :
    (∀ (a : Api) (coll : String) (contents : List String) (post_status : String → Int)
        (version : String) (ds : List String),
      coll ≠ "" → collect_pids contents = Except.ok ds → ds.Nodup →
      publish_datasets (some a) coll contents post_status version =
        PublishResult.results
          (ds.map (fun d => (d, publish_entry a.base_url version post_status d))) ∧
      ds.length = contents.length ∧
      ∀ d : String, ((publish_entry a.base_url version post_status d).status = true ↔
        (200 ≤ post_status (publish_request_url a.base_url d version) ∧
          post_status (publish_request_url a.base_url d version) < 300))) ∧
    (∀ (a : Api) (coll : String) (contents : List String)
        (get_locks : String → List LockEntry) (delete_status : String → Int)
        (ds : List String),
      coll ≠ "" → collect_pids contents = Except.ok ds →
      (locked_pids_of a.base_url get_locks ds).Nodup →
      unlock_datasets (some a) coll contents get_locks delete_status =
        PublishResult.results
          ((locked_pids_of a.base_url get_locks ds).map
            (fun p => (p, unlock_entry a.base_url delete_status p))) ∧
      ∀ p : String, ((unlock_entry a.base_url delete_status p).status = true ↔
        (200 ≤ delete_status (locks_request_url a.base_url p) ∧
          delete_status (locks_request_url a.base_url p) < 300))) := by
  constructor
  · intro a coll contents post_status version ds hcoll hds hnd
    refine ⟨?_, collect_pids_length contents ds hds, ?_⟩
    · rw [publish_datasets, if_neg (by simp [hcoll]), hds]
      show PublishResult.results _ = _
      rw [foldl_dictInsert_eq_append (publish_entry a.base_url version post_status)
        ds [] hnd (by simp)]
      simp
    · intro d
      by_cases hc : 200 ≤ post_status (publish_request_url a.base_url d version) ∧
          post_status (publish_request_url a.base_url d version) < 300 <;>
        simp [publish_entry, hc]
  · intro a coll contents get_locks delete_status ds hcoll hds hnd
    refine ⟨?_, ?_⟩
    · rw [unlock_datasets, if_neg (by simp [hcoll]), hds]
      show PublishResult.results _ = _
      rw [foldl_dictInsert_eq_append (unlock_entry a.base_url delete_status)
        (locked_pids_of a.base_url get_locks ds) [] hnd (by simp)]
      simp
    · intro p
      by_cases hc : 200 ≤ delete_status (locks_request_url a.base_url p) ∧
          delete_status (locks_request_url a.base_url p) < 300 <;>
        simp [unlock_entry, hc]

/-- Witness for the amended C3 at concrete inputs: a two-dataset listing
where the first publish fails with 404 and the second succeeds with 200
yields exactly two entries, one per PID, each with its own outcome; a
one-dataset listing whose dataset is locked yields its one unlock entry. -/
theorem batch_results_per_dataset_witness :
    publish_datasets (some exApi) "coll"
        ["https://doi.org/10.1/A", "https://doi.org/10.1/B"]
        (fun u => if u = publish_request_url exApi.base_url "doi:10.1/A" "major"
                  then 404 else 200) "major" =
      PublishResult.results
        [("doi:10.1/A", StatusMsg.mk false
            "publish_dataset::Error - failed to publish dataset: 404:doi:10.1/A"),
         ("doi:10.1/B", StatusMsg.mk true
            "publish_dataset::Success - published dataset: 200:doi:10.1/B")] ∧
    unlock_datasets (some exApi) "coll" ["https://doi.org/10.1/A"]
        (fun _ => [LockEntry.mk "doi:10.1/A"]) (fun _ => 200) =
      PublishResult.results
        [("doi:10.1/A", StatusMsg.mk true
            "publish_dataset::Success - unlocked dataset: 200:doi:10.1/A")] := by
  constructor
  · have h := (batch_results_per_dataset.1 exApi "coll"
      ["https://doi.org/10.1/A", "https://doi.org/10.1/B"]
      (fun u => if u = publish_request_url exApi.base_url "doi:10.1/A" "major"
                then 404 else 200) "major"
      ["doi:10.1/A", "doi:10.1/B"] (by decide) rfl (by decide)).1
    rw [h]
    rfl
  · have h := (batch_results_per_dataset.2 exApi "coll" ["https://doi.org/10.1/A"]
      (fun _ => [LockEntry.mk "doi:10.1/A"]) (fun _ => 200)
      ["doi:10.1/A"] (by decide) rfl (by decide)).1
    rw [h]
    rfl

/-- The eleven inventory columns `create_dataset_metadata` reads from the
first row (curate.py lines 62-92). -/
def dataset_read_columns : List String :=
  ["series_name", "volume_title", "card_number", "contributor", "all_observations",
   "card_date_year", "card_date_month", "card_date_day", "subjects", "topic_class", "url"]

/-- On non-empty tables, equal first-row reads force equal column presence. -/
lemma contains_eq_of_atFirst_eq (df1 df2 : DataFrame) (c : String)
    (h1 : df1.rows ≠ []) (h2 : df2.rows ≠ [])
    (h : df1.atFirst c = df2.atFirst c) :
    df1.columns.contains c = df2.columns.contains c := by
  obtain ⟨r1, t1, hr1⟩ := List.exists_cons_of_ne_nil h1
  obtain ⟨r2, t2, hr2⟩ := List.exists_cons_of_ne_nil h2
  rw [DataFrame.atFirst, DataFrame.atFirst, hr1, hr2] at h
  cases hc1 : df1.columns.contains c <;> cases hc2 : df2.columns.contains c <;>
    rw [hc1, hc2] at h <;> simp_all

/-- C5: `create_dataset_metadata` is a deterministic function of its scalar
arguments and the first-row reads of the inventory: two calls with equal
scalars whose tables agree on every first-row read over the columns the
function touches return identical results. -/
theorem metadata_deterministic_in_first_row
    (author affiliation contact email series_name : String)
    (df1 df2 : DataFrame) (h1 : df1.rows ≠ []) (h2 : df2.rows ≠ [])
    (hread : ∀ c ∈ dataset_read_columns, df1.atFirst c = df2.atFirst c) :
    create_dataset_metadata author affiliation contact email series_name df1 =
      create_dataset_metadata author affiliation contact email series_name df2 := by
  have he1 : df1.empty = false := by
    obtain ⟨r, t, hr⟩ := List.exists_cons_of_ne_nil h1
    rw [DataFrame.empty, hr]
    rfl
  have he2 : df2.empty = false := by
    obtain ⟨r, t, hr⟩ := List.exists_cons_of_ne_nil h2
    rw [DataFrame.empty, hr]
    rfl
  have hat : ∀ c ∈ dataset_read_columns, df1.atFirst c = df2.atFirst c := hread
  have hc_sn := hat "series_name" (by simp [dataset_read_columns])
  have hc_vt := hat "volume_title" (by simp [dataset_read_columns])
  have hc_cn := hat "card_number" (by simp [dataset_read_columns])
  have hc_ctr := hat "contributor" (by simp [dataset_read_columns])
  have hc_obs := hat "all_observations" (by simp [dataset_read_columns])
  have hc_y := hat "card_date_year" (by simp [dataset_read_columns])
  have hc_m := hat "card_date_month" (by simp [dataset_read_columns])
  have hc_d := hat "card_date_day" (by simp [dataset_read_columns])
  have hc_subj := hat "subjects" (by simp [dataset_read_columns])
  have hc_topic := hat "topic_class" (by simp [dataset_read_columns])
  have hc_url := hat "url" (by simp [dataset_read_columns])
  have hm : ∀ c ∈ dataset_read_columns,
      df1.columns.contains c = df2.columns.contains c :=
    fun c hc => contains_eq_of_atFirst_eq df1 df2 c h1 h2 (hat c hc)
  have hany : (required_fields.any fun field => !(df1.columns.contains field)) =
      (required_fields.any fun field => !(df2.columns.contains field)) := by
    simp only [required_fields, List.any_cons, List.any_nil]
    rw [hm "series_name" (by simp [dataset_read_columns]),
      hm "volume_title" (by simp [dataset_read_columns]),
      hm "contributor" (by simp [dataset_read_columns]),
      hm "subjects" (by simp [dataset_read_columns]),
      hm "card_date_year" (by simp [dataset_read_columns]),
      hm "url" (by simp [dataset_read_columns])]
  simp only [create_dataset_metadata]
  rw [he1, he2, hany, hc_sn, hc_vt, hc_cn, hc_ctr, hc_obs, hc_y, hc_m, hc_d,
    hc_subj, hc_topic, hc_url]

/-- Two concretely different tables — different column order, an extra
column, different extra cell — with identical first-row reads over the
columns `create_dataset_metadata` touches. -/
def exReadDf1 : DataFrame :=
  DataFrame.mk ["series_name", "volume_title", "card_number", "contributor",
                "all_observations", "card_date_year", "card_date_month", "card_date_day",
                "subjects", "topic_class", "url"]
    [[("series_name", Cell.str "Tonnage: 1"), ("volume_title", Cell.str "V"),
      ("card_number", Cell.str "12"), ("contributor", Cell.str "C"),
      ("all_observations", Cell.str "a;b"), ("card_date_year", Cell.str "1921"),
      ("card_date_month", Cell.str "3"), ("card_date_day", Cell.str "4"),
      ("subjects", Cell.str "s1;s2"), ("topic_class", Cell.str "t1"),
      ("url", Cell.str "http://u")]]

/-- See `exReadDf1`. -/
def exReadDf2 : DataFrame :=
  DataFrame.mk ["extra", "url", "topic_class", "subjects", "card_date_day",
                "card_date_month", "card_date_year", "all_observations", "contributor",
                "card_number", "volume_title", "series_name"]
    [[("extra", Cell.str "ignored"), ("url", Cell.str "http://u"),
      ("topic_class", Cell.str "t1"), ("subjects", Cell.str "s1;s2"),
      ("card_date_day", Cell.str "4"), ("card_date_month", Cell.str "3"),
      ("card_date_year", Cell.str "1921"), ("all_observations", Cell.str "a;b"),
      ("contributor", Cell.str "C"), ("card_number", Cell.str "12"),
      ("volume_title", Cell.str "V"), ("series_name", Cell.str "Tonnage: 1")]]

/-- Witness for C5 at the two concrete tables. -/
theorem metadata_deterministic_in_first_row_witness :
    create_dataset_metadata "a" "HL" "c" "c@x.org" "Tonnage: 1" exReadDf1 =
      create_dataset_metadata "a" "HL" "c" "c@x.org" "Tonnage: 1" exReadDf2 :=
  metadata_deterministic_in_first_row "a" "HL" "c" "c@x.org" "Tonnage: 1"
    exReadDf1 exReadDf2 (by simp [exReadDf1]) (by simp [exReadDf2])
    (by intro c hc; fin_cases hc <;> rfl)

/-- C7: both metadata builders consume the inventory table read-only: the
state-instrumented embeddings return the table exactly as given on every
path (every pandas access the source performs is a read). -/
theorem inventory_consumed_read_only :
    (∀ author affiliation contact email series_name df,
      (create_dataset_metadata_st author affiliation contact email series_name df).1 = df) ∧
    (∀ df tcsv ttxt txml,
      (create_datafile_metadata_st df tcsv ttxt txml).1 = df) := by
  constructor
  · intro a b c d e df
    rw [create_dataset_metadata_st]
    repeat' split
    all_goals rfl
  · intro df tcsv ttxt txml
    rw [create_datafile_metadata_st]
    repeat' split
    all_goals rfl

end Curate
